import Mathlib

/-!
# Verification of the user-story issue script

A shallow embedding of `scripts/create-github-issues.py` and proofs of the
specification's claims about it.  Python strings are modelled as Lean
`String` (or `List Char` where character-level scanning is needed), Python
`None`-able values as `Option`, dictionaries of known shape as structures,
and the regular-expression searches as explicit leftmost-match scanning
functions over character lists following the semantics of `re.search`.
-/

namespace Stories

/-- Substring scan over character lists: does `needle` occur (contiguously)
anywhere in the remaining text?  Models Python's `needle in hay`. -/
def listContainsSub (needle : List Char) : List Char → Bool
  | [] => needle.isEmpty
  | c :: rest => needle.isPrefixOf (c :: rest) || listContainsSub needle rest

/-- Python's substring test `needle in hay` on strings. -/
def strContains (hay needle : String) : Bool :=
  listContainsSub needle.data hay.data

/-- Python's `sep.join(parts)` for a list of strings. -/
def pyJoin (sep : String) : List String → String
  | [] => ""
  | [p] => p
  | p :: rest => p ++ sep ++ pyJoin sep rest

/-- Python's `text.split(sep)` for a one-character separator, over char
lists (structural, so concrete instances evaluate in the kernel). -/
def splitOnChar (sep : Char) : List Char → List (List Char)
  | [] => [[]]
  | c :: rest =>
    match splitOnChar sep rest with
    | [] => [[c]]
    | l :: ls => if c = sep then [] :: l :: ls else (c :: l) :: ls

/-- ASCII whitespace recognised by Python's `\s` and `str.strip`. -/
def isPySpace (c : Char) : Bool :=
  c = ' ' || c = '\t' || c = '\n' || c = '\r' || c = '\x0b' || c = '\x0c'

/-- Python's `str.strip()`: drop leading and trailing whitespace. -/
def pyStrip (l : List Char) : List Char :=
  ((l.dropWhile isPySpace).reverse.dropWhile isPySpace).reverse

/-- `COMPLETED_STORIES` from the script: the static set of identifiers of
finished stories (membership is all that is used). -/
def COMPLETED_STORIES : List String :=
  ["US-001", "US-002", "US-003", "US-004", "US-019"]

/-- One entry of the `STORY_METADATA` table: the dictionary
`{"sprint": …, "sp": …, "category": …}`.  Fields are `Option` because
`metadata.get(key)` yields `None` on a missing key (in particular for the
empty dictionary used when an identifier has no table entry). -/
structure Metadata where
  sprint : Option Int
  sp : Option Int
  category : Option String
deriving DecidableEq, Repr

/-- The static `STORY_METADATA` table of the script, as an association
list from story identifier to its metadata dictionary. -/
def STORY_METADATA : List (String × Metadata) :=
  [("US-001", { sprint := some 1, sp := some 3, category := some "Core Package" }),
   ("US-002", { sprint := some 1, sp := some 5, category := some "Core Package" }),
   ("US-003", { sprint := some 3, sp := some 5, category := some "Core Package" }),
   ("US-004", { sprint := some 2, sp := some 8, category := some "Core Package" }),
   ("US-005", { sprint := some 1, sp := some 5, category := some "Core Package" }),
   ("US-006", { sprint := some 2, sp := some 8, category := some "Core Package" }),
   ("US-007", { sprint := some 5, sp := some 3, category := some "Core Package" }),
   ("US-008", { sprint := some 5, sp := some 5, category := some "Core Package" }),
   ("US-009", { sprint := some 2, sp := some 5, category := some "Core Package" }),
   ("US-010", { sprint := some 3, sp := some 5, category := some "Core Package" }),
   ("US-011", { sprint := some 5, sp := some 5, category := some "Core Package" }),
   ("US-012", { sprint := some 3, sp := some 8, category := some "Core Package" }),
   ("US-013", { sprint := some 4, sp := some 5, category := some "Core Package" }),
   ("US-014", { sprint := some 6, sp := some 8, category := some "Core Package" }),
   ("US-015", { sprint := some 6, sp := some 5, category := some "Core Package" }),
   ("US-016", { sprint := some 4, sp := some 5, category := some "Core Package" }),
   ("US-017", { sprint := some 5, sp := some 3, category := some "Core Package" }),
   ("US-018", { sprint := some 4, sp := some 5, category := some "Core Package" }),
   ("US-019", { sprint := some 6, sp := some 5, category := some "Extension Package" }),
   ("US-020", { sprint := some 7, sp := some 3, category := some "Extension Package" }),
   ("US-021", { sprint := some 7, sp := some 5, category := some "Extension Package" }),
   ("US-022", { sprint := some 7, sp := some 8, category := some "Extension Package" }),
   ("US-023", { sprint := some 8, sp := some 3, category := some "Extension Package" }),
   ("US-024", { sprint := some 8, sp := some 5, category := some "Extension Package" }),
   ("US-025", { sprint := some 8, sp := some 5, category := some "Extension Package" }),
   ("US-026", { sprint := some 9, sp := some 30, category := some "Testing & Samples" }),
   ("US-027", { sprint := some 10, sp := some 13, category := some "Testing & Samples" }),
   ("US-028", { sprint := some 10, sp := some 13, category := some "Testing & Samples" }),
   ("US-029", { sprint := some 10, sp := some 8, category := some "Documentation" }),
   ("US-030", { sprint := some 10, sp := some 3, category := some "Documentation" })]

/-- The status stanza of `get_labels`: `"status:complete"` when the story
is in `COMPLETED_STORIES`, else `"status:not-started"`. -/
def statusLabel (story_id : String) : String :=
  if COMPLETED_STORIES.contains story_id then "status:complete"
  else "status:not-started"

/-- The story-point stanza of `get_labels`: `sp = metadata.get("sp")` and
`if sp: labels.append(f"sp-{sp}")` — a Python `int` is truthy iff nonzero. -/
def spLabels : Option Int → List String
  | some sp => if sp ≠ 0 then ["sp-" ++ toString sp] else []
  | none => []

/-- The sprint stanza of `get_labels`:
`if sprint: labels.append(f"sprint-{sprint}")`. -/
def sprintLabels : Option Int → List String
  | some sprint => if sprint ≠ 0 then ["sprint-" ++ toString sprint] else []
  | none => []

/-- The category stanza of `get_labels`: an `if`/`elif` chain of substring
tests on `metadata.get("category", "")`, first match wins, possibly no
label at all. -/
def categoryLabels (category : String) : List String :=
  if strContains category "Core Package" then ["core-package"]
  else if strContains category "Extension Package" then ["extension-package"]
  else if strContains category "Testing" || strContains category "Samples" then ["testing"]
  else if strContains category "Documentation" then ["documentation"]
  else []

/-- The priority stanza of `get_labels`: `if sprint and sprint <= 2: …`
elif-chain with an unconditional `else` emitting `"priority:p3"`.  The
guard `sprint and …` makes both `None` and `0` fall through to `p3`. -/
def priorityLabel : Option Int → String
  | some sprint =>
    if sprint ≠ 0 ∧ sprint ≤ 2 then "priority:p0"
    else if sprint ≠ 0 ∧ sprint ≤ 4 then "priority:p1"
    else if sprint ≠ 0 ∧ sprint ≤ 8 then "priority:p2"
    else "priority:p3"
  | none => "priority:p3"

/-- `get_labels(story_id, metadata)` from the script: starts from
`["user-story"]` and appends the status, story-point, sprint, category and
priority stanzas in the source's order. -/
def get_labels (story_id : String) (metadata : Metadata) : List String :=
  ["user-story"] ++ [statusLabel story_id] ++ spLabels metadata.sp
    ++ sprintLabels metadata.sprint
    ++ categoryLabels (metadata.category.getD "")
    ++ [priorityLabel metadata.sprint]

/-- The dictionary returned by `parse_markdown_file`: the fixed keys it
always sets, all string-valued. -/
structure Sections where
  story_id : String
  title : String
  status : String
  category : String
  effort : String
  sprint : String
  description : String
  acceptance_criteria : String
  technical_requirements : String
  testing_requirements : String
  performance_requirements : String
  dependencies : String
  definition_of_done : String
  notes : String
  related_docs : String
deriving DecidableEq, Repr

/-- Matcher for one line against the title pattern
`^# (US-\d+): (.+)$`: a `# ` prefix, then `US-`, one or more digits,
then `: `, then a nonempty rest of line; yields group 2 (the descriptive
text).  Because the pattern is anchored at line start and `.`/`$` stop at
a newline, a whole-document `re.search` with `MULTILINE` is exactly a scan
for the first line matching this. -/
def titleLineMatch (l : List Char) : Option String :=
  match l with
  | '#' :: ' ' :: 'U' :: 'S' :: '-' :: rest =>
    let digits := rest.takeWhile Char.isDigit
    if digits.isEmpty then none
    else
      match rest.drop digits.length with
      | ':' :: ' ' :: text => if text.isEmpty then none else some (String.mk text)
      | _ => none
  | _ => none

/-- Title extraction of `parse_markdown_file`:
`re.search(r"^# (US-\d+): (.+)$", content, re.MULTILINE)`, taking group 2
of the first match, defaulting to the sentinel. -/
def extractTitle (content : String) : String :=
  match (splitOnChar '\n' content.data).findSome? titleLineMatch with
  | some t => t
  | none => "Unknown Title"

/-- Scalar-field extraction: `re.search(label + r"(.+)")` — find the
leftmost occurrence of the literal `label` that is followed by at least
one non-newline character, and capture the (greedy) run of non-newline
characters after it.  An occurrence followed immediately by a newline or
the end of the text fails, and the scan continues at the next position,
exactly as `re.search` backtracks. -/
def scalarField (label : List Char) : List Char → Option String
  | [] => none
  | c :: rest =>
    if label.isPrefixOf (c :: rest) then
      let v := ((c :: rest).drop label.length).takeWhile (fun ch => ch ≠ '\n')
      if v.isEmpty then scalarField label rest else some (String.mk v)
    else scalarField label rest

/-- Index of the last `'\n'` in a character list, if any. -/
def lastNewlineIdx : List Char → Option Nat
  | [] => none
  | c :: rest =>
    match lastNewlineIdx rest with
    | some j => some (j + 1)
    | none => if c = '\n' then some 0 else none

/-- The prefix of `text` strictly before the first occurrence of `delim`
(all of `text` when `delim` does not occur): the lazy group
`(.*?)(?=\n## |\Z)` of the section regexes with `re.DOTALL`. -/
def upToDelim (delim : List Char) : List Char → List Char
  | [] => []
  | c :: rest => if delim.isPrefixOf (c :: rest) then [] else c :: upToDelim delim rest

/-- After a section heading literal has matched, the rest of its regex:
`\s*\n` consumes, by greedy matching with backtracking, the prefix of the
following whitespace run up to and including its last newline (failing
when the run contains no newline), and the capture group then runs to the
first `"\n## "` or the end of the document. -/
def sectionAfterHeader (rest : List Char) : Option (List Char) :=
  match lastNewlineIdx (rest.takeWhile isPySpace) with
  | none => none
  | some j => some (upToDelim ['\n', '#', '#', ' '] (rest.drop (j + 1)))

/-- Leftmost-match scan for one section regex
`HEADER\s*\n(.*?)(?=\n## |\Z)`: try the heading literal at every
position in order; where it matches but `\s*\n` cannot, the search
continues at the next position. -/
def findSection (header : List Char) : List Char → Option (List Char)
  | [] => none
  | c :: rest =>
    if header.isPrefixOf (c :: rest) then
      match sectionAfterHeader ((c :: rest).drop header.length) with
      | some v => some v
      | none => findSection header rest
    else findSection header rest

/-- One section field of `parse_markdown_file`: the stripped capture of
the section regex, or `""` when there is no match. -/
def findSectionText (header : String) (content : String) : String :=
  match findSection header.data content.data with
  | some v => String.mk (pyStrip v)
  | none => ""

/-- `parse_markdown_file` from the script, abstracted over the file
system: `stem` is the file name without extension (`filepath.stem`) and
`content` the text read from it.  Mirrors the source field by field. -/
def parse_markdown_file (stem : String) (content : String) : Sections :=
  { story_id := pyJoin "-" (((splitOnChar '-' stem.data).map String.mk).take 2)
    title := extractTitle content
    status := (scalarField "**Status**: ".data content.data).getD "❌ Not Started"
    category := (scalarField "**Category**: ".data content.data).getD "Unknown"
    effort := (scalarField "**Effort**: ".data content.data).getD "Unknown"
    sprint := (scalarField "**Sprint**: ".data content.data).getD "Unknown"
    description := findSectionText "## Description" content
    acceptance_criteria := findSectionText "## Acceptance Criteria" content
    technical_requirements := findSectionText "## Technical Requirements" content
    testing_requirements := findSectionText "## Testing Requirements" content
    performance_requirements := findSectionText "## Performance Requirements" content
    dependencies := findSectionText "## Dependencies" content
    definition_of_done := findSectionText "## Definition of Done" content
    notes := findSectionText "## Notes" content
    related_docs := findSectionText "## Related Documentation" content }

/-- `generate_issue_body` from the script: collect a `## Heading\n\n` +
content block for each truthy (nonempty) section, in the source's fixed
order, and join with `"\n\n"`. -/
def generate_issue_body (s : Sections) : String :=
  let body_parts : List String :=
    (if s.description ≠ "" then ["## Description\n\n" ++ s.description] else [])
    ++ (if s.acceptance_criteria ≠ "" then
          ["## Acceptance Criteria\n\n" ++ s.acceptance_criteria] else [])
    ++ (if s.technical_requirements ≠ "" then
          ["## Technical Requirements\n\n" ++ s.technical_requirements] else [])
    ++ (if s.testing_requirements ≠ "" then
          ["## Testing Requirements\n\n" ++ s.testing_requirements] else [])
    ++ (if s.performance_requirements ≠ "" then
          ["## Performance Requirements\n\n" ++ s.performance_requirements] else [])
    ++ (if s.dependencies ≠ "" then ["## Dependencies\n\n" ++ s.dependencies] else [])
    ++ (if s.definition_of_done ≠ "" then
          ["## Definition of Done\n\n" ++ s.definition_of_done] else [])
    ++ (if s.notes ≠ "" then ["## Notes\n\n" ++ s.notes] else [])
    ++ (if s.related_docs ≠ "" then
          ["## Related Documentation\n\n" ++ s.related_docs] else [])
  pyJoin "\n\n" body_parts

/-- The `"=" * 80` separator line used by the script's console output. -/
def eq80 : String := String.mk (List.replicate 80 '=')

/-- Result of a run of the program: the lines printed (one entry per
`print` call), the identifiers of the stories actually processed, and the
exit code when the process terminated through `sys.exit`. -/
structure ProgResult where
  output : List String
  processed : List String
  exitCode : Option Nat
deriving Repr

/-- `create_issues_from_directory` from the script, abstracted over the
file system: `files` is the sorted list of `(stem, content)` pairs the
`US-*.md` glob yields.  With `dry_run=False` the function prints the
integration-disabled error block and returns before touching any file;
otherwise it parses every file and prints the per-story report. -/
def create_issues_from_directory_model (files : List (String × String))
    (dryRun : Bool) : List String × List String :=
  if dryRun = false then
    (["ERROR: GitHub API integration not yet enabled",
      "To enable:",
      "1. Uncomment the PyGithub import at the top",
      "2. Uncomment the GitHub API code below",
      "3. Set GITHUB_TOKEN environment variable",
      "4. Run with --no-dry-run flag"], [])
  else
    let perStory := files.map (fun f =>
      let sections := parse_markdown_file f.1 f.2
      let story_id := sections.story_id
      let title := sections.title
      let metadata := (STORY_METADATA.lookup story_id).getD
        { sprint := none, sp := none, category := none }
      let labels := get_labels story_id metadata
      let issue_title := "[USER STORY]: " ++ story_id ++ " - " ++ title
      let issue_body := generate_issue_body sections
      ([eq80,
        "Story: " ++ story_id,
        "Title: " ++ issue_title,
        "Labels: " ++ pyJoin ", " labels,
        "Status: " ++ (if COMPLETED_STORIES.contains story_id
                       then "✅ COMPLETE" else "❌ NOT STARTED"),
        "Body length: " ++ toString issue_body.length ++ " characters",
        "DRY RUN - Would create issue",
        ""], story_id))
    (("Found " ++ toString files.length ++ " user story files\n")
       :: (perStory.map Prod.fst).flatten,
     perStory.map Prod.snd)

/-- `main` from the script, abstracted over the file system and command
line: `repoRoot` is the resolved repository root, `dirExists` whether
`repoRoot/docs/user-stories` exists, `files` the glob result and `argv`
the argument vector.  When the directory is missing it prints the
diagnostic naming the path and terminates via `sys.exit(1)`. -/
def main_model (repoRoot : String) (dirExists : Bool)
    (files : List (String × String)) (argv : List String) : ProgResult :=
  let user_stories_dir := repoRoot ++ "/docs/user-stories"
  if dirExists = false then
    { output := ["ERROR: User stories directory not found: " ++ user_stories_dir]
      processed := []
      exitCode := some 1 }
  else
    let dryRun := argv.contains "--no-dry-run" = false
    let banner :=
      if dryRun then
        [eq80,
         "DRY RUN MODE - No issues will be created",
         "Run with --no-dry-run to actually create issues",
         eq80, ""]
      else []
    let result := create_issues_from_directory_model files dryRun
    let summary :=
      ["\n" ++ eq80,
       "Summary:",
       "- Total stories: " ++ toString files.length,
       "- Completed stories: " ++ toString COMPLETED_STORIES.length,
       "- Not started stories: "
         ++ toString ((files.length : Int) - COMPLETED_STORIES.length),
       eq80]
    { output := banner ++ result.1 ++ summary
      processed := result.2
      exitCode := none }

/-- Classifier for the two possible status tokens. -/
def isStatusTok (s : String) : Bool :=
  s == "status:complete" || s == "status:not-started"

/-- Classifier for the four possible priority tokens. -/
def isPriorityTok (s : String) : Bool :=
  s == "priority:p0" || s == "priority:p1" || s == "priority:p2" || s == "priority:p3"

/-- All the fixed label literals `get_labels` can emit (everything except
the two parameterised `sp-`/`sprint-` tokens). -/
def labelLits : List String :=
  ["user-story", "status:complete", "status:not-started", "core-package",
   "extension-package", "testing", "documentation",
   "priority:p0", "priority:p1", "priority:p2", "priority:p3"]

/- ## Helper lemmas about the label machinery -/

theorem string_ne_of_idx {s t : String} (i : Nat) {c d : Char}
    (hs : s.data.get? i = some c) (ht : t.data.get? i = some d)
    (h : c ≠ d) : s ≠ t := by
  intro he
  rw [he] at hs
  rw [hs] at ht
  exact h (Option.some.inj ht)

theorem spTok_ne_lit (x : String) : ∀ t ∈ labelLits, ("sp-" ++ x) ≠ t := by
  obtain ⟨xs⟩ := x
  intro t ht
  simp only [labelLits, List.mem_cons, List.not_mem_nil, or_false] at ht
  rcases ht with h | h | h | h | h | h | h | h | h | h | h
  all_goals subst h
  all_goals first
    | exact string_ne_of_idx 0 rfl rfl (by decide)
    | exact string_ne_of_idx 1 rfl rfl (by decide)

theorem sprintTok_ne_lit (x : String) : ∀ t ∈ labelLits, ("sprint-" ++ x) ≠ t := by
  obtain ⟨xs⟩ := x
  intro t ht
  simp only [labelLits, List.mem_cons, List.not_mem_nil, or_false] at ht
  rcases ht with h | h | h | h | h | h | h | h | h | h | h
  all_goals subst h
  all_goals first
    | exact string_ne_of_idx 0 rfl rfl (by decide)
    | exact string_ne_of_idx 1 rfl rfl (by decide)

theorem spTok_ne_sprintTok (x y : String) : ("sp-" ++ x) ≠ ("sprint-" ++ y) := by
  obtain ⟨xs⟩ := x
  obtain ⟨ys⟩ := y
  exact string_ne_of_idx 2 rfl rfl (by decide)

theorem statusLabel_cases (story_id : String) :
    statusLabel story_id = "status:complete" ∨
      statusLabel story_id = "status:not-started" := by
  unfold statusLabel
  split
  · exact Or.inl rfl
  · exact Or.inr rfl

theorem statusLabel_eq_complete_iff (story_id : String) :
    statusLabel story_id = "status:complete" ↔
      COMPLETED_STORIES.contains story_id = true := by
  unfold statusLabel
  split
  · simp_all
  · simp_all

theorem spLabels_eq_nil_or (o : Option Int) :
    spLabels o = [] ∨ ∃ n : Int, spLabels o = ["sp-" ++ toString n] := by
  cases o with
  | none => exact Or.inl rfl
  | some n =>
    by_cases h : n = 0
    · exact Or.inl (by simp [spLabels, h])
    · exact Or.inr ⟨n, by simp [spLabels, h]⟩

theorem sprintLabels_eq_nil_or (o : Option Int) :
    sprintLabels o = [] ∨ ∃ n : Int, sprintLabels o = ["sprint-" ++ toString n] := by
  cases o with
  | none => exact Or.inl rfl
  | some n =>
    by_cases h : n = 0
    · exact Or.inl (by simp [sprintLabels, h])
    · exact Or.inr ⟨n, by simp [sprintLabels, h]⟩

theorem categoryLabels_cases (c : String) :
    categoryLabels c = [] ∨ categoryLabels c = ["core-package"] ∨
      categoryLabels c = ["extension-package"] ∨ categoryLabels c = ["testing"] ∨
      categoryLabels c = ["documentation"] := by
  unfold categoryLabels
  split_ifs <;> simp

theorem priorityLabel_cases (o : Option Int) :
    priorityLabel o = "priority:p0" ∨ priorityLabel o = "priority:p1" ∨
      priorityLabel o = "priority:p2" ∨ priorityLabel o = "priority:p3" := by
  cases o with
  | none => simp [priorityLabel]
  | some n =>
    simp only [priorityLabel]
    split_ifs <;> simp

theorem mem_spLabels_not_lit {x : String} {o : Option Int}
    (hx : x ∈ spLabels o) : x ∉ labelLits := by
  rcases spLabels_eq_nil_or o with h | ⟨n, h⟩ <;> rw [h] at hx
  · exact absurd hx (List.not_mem_nil x)
  · intro hl
    rw [List.mem_singleton] at hx
    exact spTok_ne_lit (toString n) x hl hx.symm

theorem mem_sprintLabels_not_lit {x : String} {o : Option Int}
    (hx : x ∈ sprintLabels o) : x ∉ labelLits := by
  rcases sprintLabels_eq_nil_or o with h | ⟨n, h⟩ <;> rw [h] at hx
  · exact absurd hx (List.not_mem_nil x)
  · intro hl
    rw [List.mem_singleton] at hx
    exact sprintTok_ne_lit (toString n) x hl hx.symm

theorem categoryLabels_subset (c : String) :
    categoryLabels c ⊆ ["core-package", "extension-package", "testing", "documentation"] := by
  rcases categoryLabels_cases c with h | h | h | h | h <;> rw [h] <;>
    intro x hx <;> simp_all

theorem statusLabel_subset (story_id : String) :
    [statusLabel story_id] ⊆ ["status:complete", "status:not-started"] := by
  rcases statusLabel_cases story_id with h | h <;> rw [h] <;> intro x hx <;> simp_all

theorem priorityLabel_subset (o : Option Int) :
    [priorityLabel o] ⊆ ["priority:p0", "priority:p1", "priority:p2", "priority:p3"] := by
  rcases priorityLabel_cases o with h | h | h | h <;> rw [h] <;> intro x hx <;> simp_all

theorem mem_get_labels_iff (x story_id : String) (md : Metadata) :
    x ∈ get_labels story_id md ↔
      x = "user-story" ∨ x = statusLabel story_id ∨ x ∈ spLabels md.sp ∨
        x ∈ sprintLabels md.sprint ∨ x ∈ categoryLabels (md.category.getD "") ∨
        x = priorityLabel md.sprint := by
  simp [get_labels, List.mem_append]

theorem isStatusTok_mem_lit {x : String} (h : isStatusTok x = true) : x ∈ labelLits := by
  simp only [isStatusTok, Bool.or_eq_true, beq_iff_eq] at h
  rcases h with h | h <;> subst h <;> decide

theorem isPriorityTok_mem_lit {x : String} (h : isPriorityTok x = true) : x ∈ labelLits := by
  simp only [isPriorityTok, Bool.or_eq_true, beq_iff_eq] at h
  rcases h with ((h | h) | h) | h <;> subst h <;> decide

theorem countP_isStatus_spLabels (o : Option Int) :
    List.countP isStatusTok (spLabels o) = 0 :=
  List.countP_eq_zero.mpr fun _ ha hp => mem_spLabels_not_lit ha (isStatusTok_mem_lit hp)

theorem countP_isStatus_sprintLabels (o : Option Int) :
    List.countP isStatusTok (sprintLabels o) = 0 :=
  List.countP_eq_zero.mpr fun _ ha hp => mem_sprintLabels_not_lit ha (isStatusTok_mem_lit hp)

theorem countP_isPriority_spLabels (o : Option Int) :
    List.countP isPriorityTok (spLabels o) = 0 :=
  List.countP_eq_zero.mpr fun _ ha hp => mem_spLabels_not_lit ha (isPriorityTok_mem_lit hp)

theorem countP_isPriority_sprintLabels (o : Option Int) :
    List.countP isPriorityTok (sprintLabels o) = 0 :=
  List.countP_eq_zero.mpr fun _ ha hp => mem_sprintLabels_not_lit ha (isPriorityTok_mem_lit hp)

theorem countP_isStatus_categoryLabels (c : String) :
    List.countP isStatusTok (categoryLabels c) = 0 := by
  rcases categoryLabels_cases c with h | h | h | h | h <;> rw [h] <;> decide

theorem countP_isPriority_categoryLabels (c : String) :
    List.countP isPriorityTok (categoryLabels c) = 0 := by
  rcases categoryLabels_cases c with h | h | h | h | h <;> rw [h] <;> decide

theorem countP_isStatus_get_labels (story_id : String) (md : Metadata) :
    List.countP isStatusTok (get_labels story_id md) = 1 := by
  simp only [get_labels, List.countP_append]
  rw [countP_isStatus_spLabels, countP_isStatus_sprintLabels,
    countP_isStatus_categoryLabels]
  rcases statusLabel_cases story_id with h | h <;> rw [h] <;>
    rcases priorityLabel_cases md.sprint with h2 | h2 | h2 | h2 <;> rw [h2] <;> decide

theorem countP_isPriority_get_labels (story_id : String) (md : Metadata) :
    List.countP isPriorityTok (get_labels story_id md) = 1 := by
  simp only [get_labels, List.countP_append]
  rw [countP_isPriority_spLabels, countP_isPriority_sprintLabels,
    countP_isPriority_categoryLabels]
  rcases statusLabel_cases story_id with h | h <;> rw [h] <;>
    rcases priorityLabel_cases md.sprint with h2 | h2 | h2 | h2 <;> rw [h2] <;> decide

theorem disjoint_of_lit_classes {l₁ l₂ L₁ L₂ : List String}
    (h₁ : l₁ ⊆ L₁) (h₂ : l₂ ⊆ L₂) (h : ∀ a ∈ L₁, a ∉ L₂) : List.Disjoint l₁ l₂ := by
  intro a ha hb
  exact h a (h₁ ha) (h₂ hb)

theorem spLabels_disjoint_lits (o : Option Int) (L : List String)
    (hL : L ⊆ labelLits) : List.Disjoint (spLabels o) L := by
  intro a ha hb
  exact mem_spLabels_not_lit ha (hL hb)

theorem sprintLabels_disjoint_lits (o : Option Int) (L : List String)
    (hL : L ⊆ labelLits) : List.Disjoint (sprintLabels o) L := by
  intro a ha hb
  exact mem_sprintLabels_not_lit ha (hL hb)

theorem spLabels_disjoint_sprintLabels (o o' : Option Int) :
    List.Disjoint (spLabels o) (sprintLabels o') := by
  intro a ha hb
  rcases spLabels_eq_nil_or o with h | ⟨n, h⟩ <;> rw [h] at ha
  · exact List.not_mem_nil a ha
  · rcases sprintLabels_eq_nil_or o' with h2 | ⟨m, h2⟩ <;> rw [h2] at hb
    · exact List.not_mem_nil a hb
    · rw [List.mem_singleton] at ha hb
      exact spTok_ne_sprintTok (toString n) (toString m) (ha.symm.trans hb)

theorem spLabels_nodup (o : Option Int) : (spLabels o).Nodup := by
  rcases spLabels_eq_nil_or o with h | ⟨n, h⟩ <;> rw [h] <;> simp

theorem sprintLabels_nodup (o : Option Int) : (sprintLabels o).Nodup := by
  rcases sprintLabels_eq_nil_or o with h | ⟨n, h⟩ <;> rw [h] <;> simp

theorem categoryLabels_nodup (c : String) : (categoryLabels c).Nodup := by
  rcases categoryLabels_cases c with h | h | h | h | h <;> rw [h] <;> simp

theorem get_labels_nodup (story_id : String) (md : Metadata) :
    (get_labels story_id md).Nodup := by
  have ssub : [statusLabel story_id] ⊆ labelLits :=
    (statusLabel_subset story_id).trans (by decide)
  have csub : categoryLabels (md.category.getD "") ⊆ labelLits :=
    (categoryLabels_subset (md.category.getD "")).trans (by decide)
  have psub : [priorityLabel md.sprint] ⊆ labelLits :=
    (priorityLabel_subset md.sprint).trans (by decide)
  have d₁ : List.Disjoint ["user-story"] [statusLabel story_id] :=
    disjoint_of_lit_classes (List.Subset.refl _) (statusLabel_subset _) (by decide)
  have d₂ : List.Disjoint ["user-story"] (spLabels md.sp) :=
    (spLabels_disjoint_lits md.sp ["user-story"] (by decide)).symm
  have d₃ : List.Disjoint ["user-story"] (sprintLabels md.sprint) :=
    (sprintLabels_disjoint_lits md.sprint ["user-story"] (by decide)).symm
  have d₄ : List.Disjoint ["user-story"] (categoryLabels (md.category.getD "")) :=
    disjoint_of_lit_classes (List.Subset.refl _) (categoryLabels_subset _) (by decide)
  have d₅ : List.Disjoint ["user-story"] [priorityLabel md.sprint] :=
    disjoint_of_lit_classes (List.Subset.refl _) (priorityLabel_subset _) (by decide)
  have d₆ : List.Disjoint [statusLabel story_id] (spLabels md.sp) :=
    (spLabels_disjoint_lits md.sp [statusLabel story_id] ssub).symm
  have d₇ : List.Disjoint [statusLabel story_id] (sprintLabels md.sprint) :=
    (sprintLabels_disjoint_lits md.sprint [statusLabel story_id] ssub).symm
  have d₈ : List.Disjoint [statusLabel story_id] (categoryLabels (md.category.getD "")) :=
    disjoint_of_lit_classes (statusLabel_subset _) (categoryLabels_subset _) (by decide)
  have d₉ : List.Disjoint [statusLabel story_id] [priorityLabel md.sprint] :=
    disjoint_of_lit_classes (statusLabel_subset _) (priorityLabel_subset _) (by decide)
  have d₁₀ : List.Disjoint (spLabels md.sp) (sprintLabels md.sprint) :=
    spLabels_disjoint_sprintLabels md.sp md.sprint
  have d₁₁ : List.Disjoint (spLabels md.sp) (categoryLabels (md.category.getD "")) :=
    spLabels_disjoint_lits md.sp (categoryLabels (md.category.getD "")) csub
  have d₁₂ : List.Disjoint (spLabels md.sp) [priorityLabel md.sprint] :=
    spLabels_disjoint_lits md.sp [priorityLabel md.sprint] psub
  have d₁₃ : List.Disjoint (sprintLabels md.sprint) (categoryLabels (md.category.getD "")) :=
    sprintLabels_disjoint_lits md.sprint (categoryLabels (md.category.getD "")) csub
  have d₁₄ : List.Disjoint (sprintLabels md.sprint) [priorityLabel md.sprint] :=
    sprintLabels_disjoint_lits md.sprint [priorityLabel md.sprint] psub
  have d₁₅ : List.Disjoint (categoryLabels (md.category.getD "")) [priorityLabel md.sprint] :=
    disjoint_of_lit_classes (categoryLabels_subset _) (priorityLabel_subset _) (by decide)
  unfold get_labels
  simp only [List.nodup_append, List.disjoint_append_left]
  repeat' apply And.intro
  all_goals first
    | assumption
    | exact List.nodup_singleton _
    | exact spLabels_nodup _
    | exact sprintLabels_nodup _
    | exact categoryLabels_nodup _

theorem priorityLabel_mem_get (story_id : String) (md : Metadata) :
    priorityLabel md.sprint ∈ get_labels story_id md :=
  (mem_get_labels_iff _ _ _).mpr (Or.inr (Or.inr (Or.inr (Or.inr (Or.inr rfl)))))

theorem statusLabel_eq_notstarted_iff (story_id : String) :
    statusLabel story_id = "status:not-started" ↔
      COMPLETED_STORIES.contains story_id = false := by
  unfold statusLabel
  split
  · simp_all
  · simp_all

/-- Membership of a fixed label literal in the output of `get_labels`
can come only from the base, status, category or priority stanzas. -/
theorem lit_mem_get_labels_iff {x : String} (hx : x ∈ labelLits)
    (story_id : String) (md : Metadata) :
    x ∈ get_labels story_id md ↔
      x = "user-story" ∨ x = statusLabel story_id ∨
        x ∈ categoryLabels (md.category.getD "") ∨ x = priorityLabel md.sprint := by
  rw [mem_get_labels_iff]
  constructor
  · rintro (h | h | h | h | h | h)
    · exact Or.inl h
    · exact Or.inr (Or.inl h)
    · exact absurd hx (mem_spLabels_not_lit h)
    · exact absurd hx (mem_sprintLabels_not_lit h)
    · exact Or.inr (Or.inr (Or.inl h))
    · exact Or.inr (Or.inr (Or.inr h))
  · rintro (h | h | h | h)
    · exact Or.inl h
    · exact Or.inr (Or.inl h)
    · exact Or.inr (Or.inr (Or.inr (Or.inr (Or.inl h))))
    · exact Or.inr (Or.inr (Or.inr (Or.inr (Or.inr h))))

theorem doc_not_mem_categoryLabels {c : String}
    (hT : strContains c "Testing" = true) : "documentation" ∉ categoryLabels c := by
  intro hmem
  unfold categoryLabels at hmem
  split_ifs at hmem with h1 h2 h3 h4
  · exact absurd hmem (by decide)
  · exact absurd hmem (by decide)
  · exact absurd hmem (by decide)
  · simp [hT] at h3
  · exact List.not_mem_nil _ hmem

theorem spLabels_length (o : Option Int) : (spLabels o).length ≤ 1 := by
  rcases spLabels_eq_nil_or o with h | ⟨n, h⟩ <;> rw [h] <;> simp

theorem sprintLabels_length (o : Option Int) : (sprintLabels o).length ≤ 1 := by
  rcases sprintLabels_eq_nil_or o with h | ⟨n, h⟩ <;> rw [h] <;> simp

theorem categoryLabels_length (c : String) : (categoryLabels c).length ≤ 1 := by
  rcases categoryLabels_cases c with h | h | h | h | h <;> rw [h] <;> simp

/- ## Helper lemmas about the parser and body assembly -/

theorem findSection_eq_none {header t : List Char}
    (hc : listContainsSub header t = false) : findSection header t = none := by
  induction t with
  | nil => rfl
  | cons c rest ih =>
    rw [listContainsSub, Bool.or_eq_false_iff] at hc
    simp only [findSection, hc.1, Bool.false_eq_true, if_false]
    exact ih hc.2

theorem findSectionText_eq_empty {header content : String}
    (h : strContains content header = false) : findSectionText header content = "" := by
  have h' : listContainsSub header.data content.data = false := h
  unfold findSectionText
  rw [findSection_eq_none h']

theorem findSome?_first {α β : Type} (f : α → Option β) (pre post : List α)
    (x : α) (b : β) (hpre : ∀ y ∈ pre, f y = none) (hx : f x = some b) :
    (pre ++ x :: post).findSome? f = some b := by
  induction pre with
  | nil => simp [List.findSome?_cons, hx]
  | cons y ys ih =>
    rw [List.cons_append, List.findSome?_cons, hpre y (by simp)]
    exact ih fun z hz => hpre z (by simp [hz])

theorem isPrefixOf_self (l : List Char) : l.isPrefixOf l = true := by
  induction l with
  | nil => rfl
  | cons c rest ih => simp [List.isPrefixOf, ih]

theorem listContainsSub_append_self (a b : List Char) :
    listContainsSub b (a ++ b) = true := by
  induction a with
  | nil =>
    cases b with
    | nil => rfl
    | cons c bs => simp [listContainsSub, isPrefixOf_self]
  | cons c as ih => simp [listContainsSub, ih]

theorem strContains_append_self (a b : String) : strContains (a ++ b) b = true := by
  obtain ⟨as⟩ := a
  obtain ⟨bs⟩ := b
  exact listContainsSub_append_self as bs

/- ## Claim theorems -/

/-- C1 (counterexample): the spec's example output for "US-004" is wrong
about the status token.  "US-004" is a member of `COMPLETED_STORIES`, so
`get_labels` emits "status:complete" for it, not "not-started" as the
example asserts. -/
theorem C1_counterexample :
    COMPLETED_STORIES.contains "US-004" = true ∧
    get_labels "US-004" { sprint := some 2, sp := some 8, category := some "Core Package" } ≠
      ["user-story", "status:not-started", "sp-8", "sprint-2", "core-package",
       "priority:p0"] := by
  decide

/-- C1 (amended): for "US-004" with metadata {sprint 2, sp 8, category
"Core Package"} — which is exactly its `STORY_METADATA` entry —
`get_labels` produces the example's label sequence except that the status
token is "status:complete", because "US-004" is in Completed-Set. -/
theorem C1_us004_labels :
    get_labels "US-004" { sprint := some 2, sp := some 8, category := some "Core Package" } =
      ["user-story", "status:complete", "sp-8", "sprint-2", "core-package",
       "priority:p0"] ∧
    STORY_METADATA.lookup "US-004" =
      some { sprint := some 2, sp := some 8, category := some "Core Package" } := by
  constructor
  · decide
  · decide

/-- C2: the priority token follows the sprint threshold ladder — sprint
1 or 2 gives "priority:p0", 3 or 4 gives "priority:p1", 5 through 8 gives
"priority:p2", 9 or 10 gives "priority:p3", and an absent sprint gives
"priority:p3" — and every call emits exactly one priority token. -/
theorem C2_priority_ladder (story_id : String) (md : Metadata) :
    List.countP isPriorityTok (get_labels story_id md) = 1 ∧
    (md.sprint = some 1 ∨ md.sprint = some 2 →
      "priority:p0" ∈ get_labels story_id md) ∧
    (md.sprint = some 3 ∨ md.sprint = some 4 →
      "priority:p1" ∈ get_labels story_id md) ∧
    (md.sprint = some 5 ∨ md.sprint = some 6 ∨ md.sprint = some 7 ∨ md.sprint = some 8 →
      "priority:p2" ∈ get_labels story_id md) ∧
    (md.sprint = some 9 ∨ md.sprint = some 10 →
      "priority:p3" ∈ get_labels story_id md) ∧
    (md.sprint = none → "priority:p3" ∈ get_labels story_id md) := by
  have hm := priorityLabel_mem_get story_id md
  refine ⟨countP_isPriority_get_labels story_id md, ?_, ?_, ?_, ?_, ?_⟩
  · intro h
    rcases h with h | h <;> rw [h] at hm
    · rwa [show priorityLabel (some 1) = "priority:p0" from by decide] at hm
    · rwa [show priorityLabel (some 2) = "priority:p0" from by decide] at hm
  · intro h
    rcases h with h | h <;> rw [h] at hm
    · rwa [show priorityLabel (some 3) = "priority:p1" from by decide] at hm
    · rwa [show priorityLabel (some 4) = "priority:p1" from by decide] at hm
  · intro h
    rcases h with h | h | h | h <;> rw [h] at hm
    · rwa [show priorityLabel (some 5) = "priority:p2" from by decide] at hm
    · rwa [show priorityLabel (some 6) = "priority:p2" from by decide] at hm
    · rwa [show priorityLabel (some 7) = "priority:p2" from by decide] at hm
    · rwa [show priorityLabel (some 8) = "priority:p2" from by decide] at hm
  · intro h
    rcases h with h | h <;> rw [h] at hm
    · rwa [show priorityLabel (some 9) = "priority:p3" from by decide] at hm
    · rwa [show priorityLabel (some 10) = "priority:p3" from by decide] at hm
  · intro h
    rw [h] at hm
    exact hm

/-- C2 witness: at sprint 2 (the "US-004" metadata) the theorem yields
the "priority:p0" token and the one-priority-token count. -/
theorem C2_witness :
    "priority:p0" ∈ get_labels "US-004"
      { sprint := some 2, sp := some 8, category := some "Core Package" } ∧
    List.countP isPriorityTok (get_labels "US-004"
      { sprint := some 2, sp := some 8, category := some "Core Package" }) = 1 := by
  have h := C2_priority_ladder "US-004"
    { sprint := some 2, sp := some 8, category := some "Core Package" }
  exact ⟨h.2.1 (Or.inr rfl), h.1⟩

/-- C3: every call of `get_labels` emits exactly one status token —
"status:complete" exactly when the identifier is in `COMPLETED_STORIES`,
"status:not-started" exactly otherwise — independently of the metadata
(`md` is universally quantified and absent from the right-hand sides). -/
theorem C3_status_token (story_id : String) (md : Metadata) :
    List.countP isStatusTok (get_labels story_id md) = 1 ∧
    ("status:complete" ∈ get_labels story_id md ↔
      COMPLETED_STORIES.contains story_id = true) ∧
    ("status:not-started" ∈ get_labels story_id md ↔
      COMPLETED_STORIES.contains story_id = false) := by
  refine ⟨countP_isStatus_get_labels story_id md, ?_, ?_⟩
  · constructor
    · intro h
      rcases (lit_mem_get_labels_iff (by decide) story_id md).mp h with h | h | h | h
      · exact absurd h (by decide)
      · exact (statusLabel_eq_complete_iff story_id).mp h.symm
      · exact absurd (categoryLabels_subset _ h) (by decide)
      · rcases priorityLabel_cases md.sprint with p | p | p | p <;> rw [p] at h <;>
          exact absurd h (by decide)
    · intro h
      exact (lit_mem_get_labels_iff (by decide) story_id md).mpr
        (Or.inr (Or.inl ((statusLabel_eq_complete_iff story_id).mpr h).symm))
  · constructor
    · intro h
      rcases (lit_mem_get_labels_iff (by decide) story_id md).mp h with h | h | h | h
      · exact absurd h (by decide)
      · exact (statusLabel_eq_notstarted_iff story_id).mp h.symm
      · exact absurd (categoryLabels_subset _ h) (by decide)
      · rcases priorityLabel_cases md.sprint with p | p | p | p <;> rw [p] at h <;>
          exact absurd h (by decide)
    · intro h
      exact (lit_mem_get_labels_iff (by decide) story_id md).mpr
        (Or.inr (Or.inl ((statusLabel_eq_notstarted_iff story_id).mpr h).symm))

/-- C5: for every identifier and metadata, the label list returned by
`get_labels` has no duplicate elements.  (`get_labels` is a plain Lean
function of its two arguments, so purity and totality hold by
construction.) -/
theorem C5_labels_nodup (story_id : String) (md : Metadata) :
    (get_labels story_id md).Nodup :=
  get_labels_nodup story_id md

/-- C10: for every identifier and metadata dictionary — the all-`none`
dictionary modelling the empty `{}` default included — the label list
starts with the base marker "user-story", has exactly one status and
exactly one priority token, and its length is between 3 and 6. -/
theorem C10_label_invariants (story_id : String) (md : Metadata) :
    (get_labels story_id md).head? = some "user-story" ∧
    List.countP isStatusTok (get_labels story_id md) = 1 ∧
    List.countP isPriorityTok (get_labels story_id md) = 1 ∧
    3 ≤ (get_labels story_id md).length ∧ (get_labels story_id md).length ≤ 6 := by
  refine ⟨rfl, countP_isStatus_get_labels story_id md,
    countP_isPriority_get_labels story_id md, ?_, ?_⟩ <;>
  · have h1 := spLabels_length md.sp
    have h2 := sprintLabels_length md.sprint
    have h3 := categoryLabels_length (md.category.getD "")
    simp only [get_labels, List.length_append, List.length_cons, List.length_nil]
    omega

/-- C4 (counterexample): a category containing both "Testing" and
"Documentation" does not always yield the testing token — when it also
contains "Core Package" the first rule wins and the core-package token is
emitted instead, so the claim's "in particular" sentence is false as
stated. -/
theorem C4_counterexample :
    strContains "Core Package Testing Documentation" "Testing" = true ∧
    strContains "Core Package Testing Documentation" "Documentation" = true ∧
    "testing" ∉ get_labels "US-900"
      { sprint := none, sp := none, category := some "Core Package Testing Documentation" } ∧
    get_labels "US-900"
      { sprint := none, sp := none, category := some "Core Package Testing Documentation" } =
      ["user-story", "status:not-started", "core-package", "priority:p3"] := by
  decide

/-- C4 (amended): category routing is a first-match-wins chain in the
fixed order Core Package, Extension Package, Testing-or-Samples,
Documentation, with no token otherwise.  In particular a category
containing both "Testing" and "Documentation" but neither "Core Package"
nor "Extension Package" yields the testing token, and a category
containing "Testing" never yields the documentation token. -/
theorem C4_category_routing (story_id : String) (md : Metadata) :
    (strContains (md.category.getD "") "Core Package" = true →
      "core-package" ∈ get_labels story_id md) ∧
    (strContains (md.category.getD "") "Core Package" = false →
     strContains (md.category.getD "") "Extension Package" = true →
      "extension-package" ∈ get_labels story_id md) ∧
    (strContains (md.category.getD "") "Core Package" = false →
     strContains (md.category.getD "") "Extension Package" = false →
     (strContains (md.category.getD "") "Testing" = true ∨
      strContains (md.category.getD "") "Samples" = true) →
      "testing" ∈ get_labels story_id md) ∧
    (strContains (md.category.getD "") "Core Package" = false →
     strContains (md.category.getD "") "Extension Package" = false →
     strContains (md.category.getD "") "Testing" = false →
     strContains (md.category.getD "") "Samples" = false →
     strContains (md.category.getD "") "Documentation" = true →
      "documentation" ∈ get_labels story_id md) ∧
    (strContains (md.category.getD "") "Core Package" = false →
     strContains (md.category.getD "") "Extension Package" = false →
     strContains (md.category.getD "") "Testing" = false →
     strContains (md.category.getD "") "Samples" = false →
     strContains (md.category.getD "") "Documentation" = false →
      ∀ x ∈ (["core-package", "extension-package", "testing", "documentation"] : List String),
        x ∉ get_labels story_id md) ∧
    (strContains (md.category.getD "") "Testing" = true →
      "documentation" ∉ get_labels story_id md) := by
  have hcat : ∀ y : String, y ∈ categoryLabels (md.category.getD "") →
      y ∈ get_labels story_id md := fun y hy =>
    (mem_get_labels_iff y story_id md).mpr (Or.inr (Or.inr (Or.inr (Or.inr (Or.inl hy)))))
  refine ⟨?_, ?_, ?_, ?_, ?_, ?_⟩
  · intro h1
    exact hcat _ (by simp [categoryLabels, h1])
  · intro h1 h2
    exact hcat _ (by simp [categoryLabels, h1, h2])
  · intro h1 h2 h3
    rcases h3 with h3 | h3 <;> exact hcat _ (by simp [categoryLabels, h1, h2, h3])
  · intro h1 h2 h3 h4 h5
    exact hcat _ (by simp [categoryLabels, h1, h2, h3, h4, h5])
  · intro h1 h2 h3 h4 h5 x hx hmem
    have hempty : categoryLabels (md.category.getD "") = [] := by
      simp [categoryLabels, h1, h2, h3, h4, h5]
    have hx' : x ∈ labelLits := by
      fin_cases hx <;> decide
    rcases (lit_mem_get_labels_iff hx' story_id md).mp hmem with h | h | h | h
    · rw [h] at hx
      exact absurd hx (by decide)
    · rcases statusLabel_cases story_id with s | s <;> rw [s] at h <;> rw [h] at hx <;>
        exact absurd hx (by decide)
    · rw [hempty] at h
      exact List.not_mem_nil x h
    · rcases priorityLabel_cases md.sprint with p | p | p | p <;> rw [p] at h <;>
        rw [h] at hx <;> exact absurd hx (by decide)
  · intro hT hmem
    rcases (lit_mem_get_labels_iff (by decide) story_id md).mp hmem with h | h | h | h
    · exact absurd h (by decide)
    · rcases statusLabel_cases story_id with s | s <;> rw [s] at h <;>
        exact absurd h (by decide)
    · exact doc_not_mem_categoryLabels hT h
    · rcases priorityLabel_cases md.sprint with p | p | p | p <;> rw [p] at h <;>
        exact absurd h (by decide)

/-- C4 witness: for the "Testing & Samples" category with no earlier rule
matching, the testing token is emitted and the documentation token is
absent. -/
theorem C4_witness :
    "testing" ∈ get_labels "US-026"
      { sprint := some 9, sp := some 30, category := some "Testing & Samples" } ∧
    "documentation" ∉ get_labels "US-026"
      { sprint := some 9, sp := some 30, category := some "Testing & Samples" } := by
  have h := C4_category_routing "US-026"
    { sprint := some 9, sp := some 30, category := some "Testing & Samples" }
  exact ⟨h.2.2.1 (by decide) (by decide) (Or.inl (by decide)),
    h.2.2.2.2.2 (by decide)⟩

/-- C6: `parse_markdown_file` is total by construction (a plain Lean
function), and for each of the nine optional sections whose heading does
not occur in the document the corresponding field is the empty string
(not one of the sentinel defaults used for scalar fields). -/
theorem C6_missing_sections (stem content : String) :
    (strContains content "## Description" = false →
      (parse_markdown_file stem content).description = "") ∧
    (strContains content "## Acceptance Criteria" = false →
      (parse_markdown_file stem content).acceptance_criteria = "") ∧
    (strContains content "## Technical Requirements" = false →
      (parse_markdown_file stem content).technical_requirements = "") ∧
    (strContains content "## Testing Requirements" = false →
      (parse_markdown_file stem content).testing_requirements = "") ∧
    (strContains content "## Performance Requirements" = false →
      (parse_markdown_file stem content).performance_requirements = "") ∧
    (strContains content "## Dependencies" = false →
      (parse_markdown_file stem content).dependencies = "") ∧
    (strContains content "## Definition of Done" = false →
      (parse_markdown_file stem content).definition_of_done = "") ∧
    (strContains content "## Notes" = false →
      (parse_markdown_file stem content).notes = "") ∧
    (strContains content "## Related Documentation" = false →
      (parse_markdown_file stem content).related_docs = "") := by
  refine ⟨?_, ?_, ?_, ?_, ?_, ?_, ?_, ?_, ?_⟩ <;>
    exact fun h => findSectionText_eq_empty h

/-- C6 witness: on a document with no section headings at all, every one
of the nine section fields is the empty string. -/
theorem C6_witness :
    (parse_markdown_file "US-099-x" "plain text only").description = "" ∧
    (parse_markdown_file "US-099-x" "plain text only").acceptance_criteria = "" ∧
    (parse_markdown_file "US-099-x" "plain text only").technical_requirements = "" ∧
    (parse_markdown_file "US-099-x" "plain text only").testing_requirements = "" ∧
    (parse_markdown_file "US-099-x" "plain text only").performance_requirements = "" ∧
    (parse_markdown_file "US-099-x" "plain text only").dependencies = "" ∧
    (parse_markdown_file "US-099-x" "plain text only").definition_of_done = "" ∧
    (parse_markdown_file "US-099-x" "plain text only").notes = "" ∧
    (parse_markdown_file "US-099-x" "plain text only").related_docs = "" := by
  have h := C6_missing_sections "US-099-x" "plain text only"
  exact ⟨h.1 (by decide), h.2.1 (by decide), h.2.2.1 (by decide), h.2.2.2.1 (by decide),
    h.2.2.2.2.1 (by decide), h.2.2.2.2.2.1 (by decide), h.2.2.2.2.2.2.1 (by decide),
    h.2.2.2.2.2.2.2.1 (by decide), h.2.2.2.2.2.2.2.2 (by decide)⟩

/-- C7: `generate_issue_body` concatenates one `## Heading` block plus
blank line and content per present section, in the fixed canonical order,
with exactly one blank line between consecutive blocks; an absent (empty)
section — whether the first or a middle one — contributes no block and no
extra separator, and with all nine sections present the body is exactly
the nine headed blocks in order. -/
theorem C7_body_assembly (s : Sections) :
    (s.description ≠ "" ∧ s.acceptance_criteria ≠ "" ∧ s.technical_requirements ≠ "" ∧
     s.testing_requirements ≠ "" ∧ s.performance_requirements ≠ "" ∧
     s.dependencies ≠ "" ∧ s.definition_of_done ≠ "" ∧ s.notes ≠ "" ∧
     s.related_docs ≠ "" →
      generate_issue_body s =
        ("## Description\n\n" ++ s.description ++ "\n\n") ++
        (("## Acceptance Criteria\n\n" ++ s.acceptance_criteria ++ "\n\n") ++
        (("## Technical Requirements\n\n" ++ s.technical_requirements ++ "\n\n") ++
        (("## Testing Requirements\n\n" ++ s.testing_requirements ++ "\n\n") ++
        (("## Performance Requirements\n\n" ++ s.performance_requirements ++ "\n\n") ++
        (("## Dependencies\n\n" ++ s.dependencies ++ "\n\n") ++
        (("## Definition of Done\n\n" ++ s.definition_of_done ++ "\n\n") ++
        (("## Notes\n\n" ++ s.notes ++ "\n\n") ++
        ("## Related Documentation\n\n" ++ s.related_docs))))))))) ∧
    (s.description = "" ∧ s.acceptance_criteria ≠ "" ∧ s.technical_requirements ≠ "" ∧
     s.testing_requirements ≠ "" ∧ s.performance_requirements ≠ "" ∧
     s.dependencies ≠ "" ∧ s.definition_of_done ≠ "" ∧ s.notes ≠ "" ∧
     s.related_docs ≠ "" →
      generate_issue_body s =
        ("## Acceptance Criteria\n\n" ++ s.acceptance_criteria ++ "\n\n") ++
        (("## Technical Requirements\n\n" ++ s.technical_requirements ++ "\n\n") ++
        (("## Testing Requirements\n\n" ++ s.testing_requirements ++ "\n\n") ++
        (("## Performance Requirements\n\n" ++ s.performance_requirements ++ "\n\n") ++
        (("## Dependencies\n\n" ++ s.dependencies ++ "\n\n") ++
        (("## Definition of Done\n\n" ++ s.definition_of_done ++ "\n\n") ++
        (("## Notes\n\n" ++ s.notes ++ "\n\n") ++
        ("## Related Documentation\n\n" ++ s.related_docs)))))))) ∧
    (s.description ≠ "" ∧ s.acceptance_criteria ≠ "" ∧ s.technical_requirements ≠ "" ∧
     s.testing_requirements ≠ "" ∧ s.performance_requirements ≠ "" ∧
     s.dependencies = "" ∧ s.definition_of_done ≠ "" ∧ s.notes ≠ "" ∧
     s.related_docs ≠ "" →
      generate_issue_body s =
        ("## Description\n\n" ++ s.description ++ "\n\n") ++
        (("## Acceptance Criteria\n\n" ++ s.acceptance_criteria ++ "\n\n") ++
        (("## Technical Requirements\n\n" ++ s.technical_requirements ++ "\n\n") ++
        (("## Testing Requirements\n\n" ++ s.testing_requirements ++ "\n\n") ++
        (("## Performance Requirements\n\n" ++ s.performance_requirements ++ "\n\n") ++
        (("## Definition of Done\n\n" ++ s.definition_of_done ++ "\n\n") ++
        (("## Notes\n\n" ++ s.notes ++ "\n\n") ++
        ("## Related Documentation\n\n" ++ s.related_docs)))))))) ∧
    (s.description = "" ∧ s.acceptance_criteria = "" ∧ s.technical_requirements = "" ∧
     s.testing_requirements = "" ∧ s.performance_requirements = "" ∧
     s.dependencies = "" ∧ s.definition_of_done = "" ∧ s.notes = "" ∧
     s.related_docs = "" →
      generate_issue_body s = "") := by
  refine ⟨?_, ?_, ?_, ?_⟩
  · rintro ⟨h1, h2, h3, h4, h5, h6, h7, h8, h9⟩
    simp only [generate_issue_body]
    rw [if_pos h1, if_pos h2, if_pos h3, if_pos h4, if_pos h5, if_pos h6,
      if_pos h7, if_pos h8, if_pos h9]
    rfl
  · rintro ⟨h1, h2, h3, h4, h5, h6, h7, h8, h9⟩
    simp only [generate_issue_body]
    rw [if_neg (fun k => k h1), if_pos h2, if_pos h3, if_pos h4, if_pos h5,
      if_pos h6, if_pos h7, if_pos h8, if_pos h9]
    rfl
  · rintro ⟨h1, h2, h3, h4, h5, h6, h7, h8, h9⟩
    simp only [generate_issue_body]
    rw [if_pos h1, if_pos h2, if_pos h3, if_pos h4, if_pos h5,
      if_neg (fun k => k h6), if_pos h7, if_pos h8, if_pos h9]
    rfl
  · rintro ⟨h1, h2, h3, h4, h5, h6, h7, h8, h9⟩
    simp only [generate_issue_body]
    rw [if_neg (fun k => k h1), if_neg (fun k => k h2), if_neg (fun k => k h3),
      if_neg (fun k => k h4), if_neg (fun k => k h5), if_neg (fun k => k h6),
      if_neg (fun k => k h7), if_neg (fun k => k h8), if_neg (fun k => k h9)]
    rfl

set_option maxRecDepth 4000 in
/-- C7 witness: the all-sections-present equality evaluated at a concrete
record. -/
theorem C7_witness :
    generate_issue_body
      { story_id := "US-001", title := "T", status := "S", category := "C",
        effort := "E", sprint := "1", description := "d1",
        acceptance_criteria := "d2", technical_requirements := "d3",
        testing_requirements := "d4", performance_requirements := "d5",
        dependencies := "d6", definition_of_done := "d7", notes := "d8",
        related_docs := "d9" } =
      "## Description\n\nd1\n\n## Acceptance Criteria\n\nd2\n\n## Technical Requirements\n\nd3\n\n## Testing Requirements\n\nd4\n\n## Performance Requirements\n\nd5\n\n## Dependencies\n\nd6\n\n## Definition of Done\n\nd7\n\n## Notes\n\nd8\n\n## Related Documentation\n\nd9" := by
  rw [(C7_body_assembly _).1 (by decide)]
  decide

/-- C8 (counterexample): title extraction does not require the heading to
contain the story's own identifier.  For the file stem "US-001-test" the
derived identifier is "US-001", the document contains no occurrence of
"US-001" at all, yet the title is taken from the "# US-999: …" heading
instead of falling back to the sentinel. -/
theorem C8_counterexample :
    (parse_markdown_file "US-001-test" "# US-999: Widget Factory").story_id = "US-001" ∧
    strContains "# US-999: Widget Factory" "US-001" = false ∧
    (parse_markdown_file "US-001-test" "# US-999: Widget Factory").title =
      "Widget Factory" ∧
    (parse_markdown_file "US-001-test" "# US-999: Widget Factory").title ≠
      "Unknown Title" := by
  decide

/-- C8 (amended): the title comes from the first line of the document
matching a level-1 heading of the shape `# US-<digits>: <nonempty text>`
— the identifier in the heading is any of that shape, not checked against
the story's own — and when no line matches, the title is the sentinel
"Unknown Title". -/
theorem C8_title_extraction (stem content : String) :
    ((∀ l ∈ splitOnChar '\n' content.data, titleLineMatch l = none) →
      (parse_markdown_file stem content).title = "Unknown Title") ∧
    (∀ pre l post t, splitOnChar '\n' content.data = pre ++ l :: post →
      (∀ l' ∈ pre, titleLineMatch l' = none) → titleLineMatch l = some t →
      (parse_markdown_file stem content).title = t) := by
  constructor
  · intro h
    show extractTitle content = "Unknown Title"
    unfold extractTitle
    rw [List.findSome?_eq_none_iff.mpr h]
  · intro pre l post t heq hpre hl
    show extractTitle content = t
    unfold extractTitle
    rw [heq, findSome?_first titleLineMatch pre post l t hpre hl]

/-- C8 witness: the second matching line is ignored; the first matching
line (after a non-matching one) supplies the title. -/
theorem C8_witness :
    (parse_markdown_file "US-002-a"
      "intro line\n# US-002: Hello World\n# US-003: Later").title = "Hello World" :=
  (C8_title_extraction "US-002-a"
    "intro line\n# US-002: Hello World\n# US-003: Later").2
    ["intro line".data] "# US-002: Hello World".data ["# US-003: Later".data]
    "Hello World" (by decide) (by decide) (by decide)

/-- C9: when the user-stories directory does not exist, the program's run
consists of exactly one diagnostic line that names the missing path, the
exit code is 1, and no story is processed. -/
theorem C9_missing_directory (repoRoot : String) (files : List (String × String))
    (argv : List String) :
    main_model repoRoot false files argv =
      { output := ["ERROR: User stories directory not found: "
                    ++ (repoRoot ++ "/docs/user-stories")],
        processed := [], exitCode := some 1 } ∧
    strContains ("ERROR: User stories directory not found: "
        ++ (repoRoot ++ "/docs/user-stories"))
      (repoRoot ++ "/docs/user-stories") = true := by
  exact ⟨rfl, strContains_append_self _ _⟩

end Stories
